import Mathlib

/-!
Verification of the face-recognition kiosk client (Qt sources).

Shallow embedding of the code under `src/Qt/src/services/`:
* `CacheManager` (cachemanager.cpp): file-backed cache of attendance logs and
  of the user roster, stored as QVariant/JSON snapshots.
* `FaceRecognitionService` (facerecognitionservice.cpp): parsing of the
  `/recognize` response and the reply-finished slot.
* `CameraManager` (cameramanager.cpp): `startCamera`.

QVariant / QJsonValue data is embedded as the inductive `QVal`; QVariantMap /
QJsonObject as association lists with Qt lookup/insert semantics.  File
persistence is modelled explicitly: a mutating cache call reads the current
snapshot, transforms it, and the write either succeeds (the snapshot is
replaced) or fails (the snapshot is unchanged, mirroring `QFile::open`
returning false before anything is written).  JSON serialisation is modelled
as faithful (storing the QVariant value itself).
-/

namespace FaceRec

/-- Embedded QVariant / QJsonValue. `vNull` stands for an invalid/absent
value (default-constructed `QVariant()` / undefined `QJsonValue`). -/
inductive QVal where
  | vNull
  | vBool (b : Bool)
  | vStr (s : String)
  | vNum (q : Rat)
  | vList (xs : List QVal)
  | vMap (m : List (String × QVal))

/-- `QVariant::toBool` / `QJsonValue::toBool` with default `false`. -/
def qToBool : QVal → Bool
  | .vBool b => b
  | _ => false

/-- `toString` with default empty string. -/
def qToString : QVal → String
  | .vStr s => s
  | _ => ""

/-- `toDouble` with default `0`. -/
def qToNum : QVal → Rat
  | .vNum q => q
  | _ => 0

/-- `toList` with default empty list. -/
def qToList : QVal → List QVal
  | .vList xs => xs
  | _ => []

/-- `toMap` with default empty map. -/
def qToMap : QVal → List (String × QVal)
  | .vMap m => m
  | _ => []

/-- A QVariantMap / QJsonObject. -/
abbrev VariantMap := List (String × QVal)

/-- Map lookup: `m[k]` read semantics, `vNull` when the key is absent. -/
def mapGet : VariantMap → String → QVal
  | [], _ => .vNull
  | (k, v) :: rest, key => if k = key then v else mapGet rest key

/-- Map update: `m[k] = v` (replace the binding if present, else add it). -/
def mapSet : VariantMap → String → QVal → VariantMap
  | [], key, val => [(key, val)]
  | (k, v) :: rest, key, val =>
      if k = key then (key, val) :: rest else (k, v) :: mapSet rest key val

/-!
## File persistence (`CacheManager::saveToFile` / `loadFromFile`)

`saveToFile` opens the destination path with `QIODevice::WriteOnly` — which
truncates the file — and then writes the serialised document into that same
path.  To reason about crashes we spell the call out as its sequence of
primitive file-system operations; a crash corresponds to executing only a
prefix of that sequence.  A file maps to `some v` when it exists and holds a
parseable snapshot `v`, and to `none` when it is missing or unparseable (an
empty, truncated file does not parse as JSON, so `loadFromFile` yields an
invalid `QVariant` for it, exactly as for a missing file). -/

/-- Primitive file-system operations.  `rename` is included so that the
atomic write-temp-then-rename discipline is expressible in the model; the
code's `saveToFile` never issues it. -/
inductive FsOp where
  | openTrunc (path : String)
  | writeAll (path : String) (content : QVal)
  | rename (src dst : String)

/-- File-system state: parseable snapshot per path (`none` = missing or
unparseable). -/
def FS := String → Option QVal

def applyFsOp (fs : FS) : FsOp → FS
  | .openTrunc p => fun q => if q = p then none else fs q
  | .writeAll p d => fun q => if q = p then some d else fs q
  | .rename src dst => fun q =>
      if q = dst then fs src else if q = src then none else fs q

def runFs (fs : FS) (ops : List FsOp) : FS := ops.foldl applyFsOp fs

/-- `CacheManager::saveToFile(filePath, data)`: open the target path itself
for writing (truncating it), then write the JSON document into it.  There is
no temporary file and no rename. -/
def saveToFileOps (filePath : String) (data : QVal) : List FsOp :=
  [.openTrunc filePath, .writeAll filePath data]

/-!
## Log cache (`cacheLog`, `getUnsyncedLogs`, `markLogSynced`,
`clearSyncedLogs`)

The logs snapshot is a QVariant list of QVariantMap entries.  Every mutator
re-reads the snapshot, transforms the list, and calls `saveToFile` exactly
once; when that write fails (`QFile::open` returns false before anything is
written) the persisted snapshot is unchanged, the function returns (it is
`void`) and no signal is emitted — the class declares only the signals
`cacheUpdated` and `unsyncedLogsChanged`, no error signal, and none of the
mutators retries the write. -/

inductive CacheSignal where
  | cacheUpdated
  | unsyncedLogsChanged
deriving DecidableEq

/-- Observable outcome of one mutating `CacheManager` call: the persisted
logs snapshot after the call, the signals it emitted, and how many times it
invoked `saveToFile`.  The C++ functions return `void`, so there is no
return-value channel. -/
structure MutationResult where
  newLogs : List VariantMap
  signals : List CacheSignal
  writeAttempts : Nat

/-- The entry actually appended by `cacheLog`: the caller's map with
`synced = false` and a `cached_at` timestamp added. -/
def cachedEntry (log : VariantMap) (now : String) : VariantMap :=
  mapSet (mapSet log "synced" (.vBool false)) "cached_at" (.vStr now)

/-- `CacheManager::cacheLog(log)`: read the cached logs, append the entry
with `synced=false`, save once; emit `unsyncedLogsChanged` only if the save
succeeded.  `now` is the current time, `writeOk` the outcome of the single
`saveToFile` call. -/
def cacheLog (log : VariantMap) (now : String) (writeOk : Bool)
    (logs : List VariantMap) : MutationResult :=
  let newLogs := logs ++ [cachedEntry log now]
  if writeOk then ⟨newLogs, [.unsyncedLogsChanged], 1⟩ else ⟨logs, [], 1⟩

/-- `entry["synced"].toBool()`. -/
def entrySynced (e : VariantMap) : Bool := qToBool (mapGet e "synced")

/-- `entry["id"].toString()`. -/
def entryId (e : VariantMap) : String := qToString (mapGet e "id")

/-- The loop body of `markLogSynced`: set `synced = true` and `synced_at` on
the first entry whose `id` matches, then `break`; later entries untouched. -/
def markFirstSynced (logId now : String) : List VariantMap → List VariantMap
  | [] => []
  | log :: rest =>
      if entryId log = logId then
        (mapSet (mapSet log "synced" (.vBool true)) "synced_at" (.vStr now)) :: rest
      else log :: markFirstSynced logId now rest

/-- `CacheManager::markLogSynced(logId)`. -/
def markLogSynced (logId now : String) (writeOk : Bool)
    (logs : List VariantMap) : MutationResult :=
  let newLogs := markFirstSynced logId now logs
  if writeOk then ⟨newLogs, [.unsyncedLogsChanged], 1⟩ else ⟨logs, [], 1⟩

/-- `CacheManager::getUnsyncedLogs()`: loop over the cached logs appending
every entry whose `synced` flag reads back false. -/
def getUnsyncedLogs (logs : List VariantMap) : List VariantMap :=
  logs.foldl (fun acc l => if entrySynced l = false then acc ++ [l] else acc) []

/-- `CacheManager::clearSyncedLogs()`: rebuild the list keeping only the
unsynced entries (same loop as `getUnsyncedLogs`), then save once. -/
def clearSyncedLogs (writeOk : Bool) (logs : List VariantMap) : MutationResult :=
  let kept :=
    logs.foldl (fun acc l => if entrySynced l = false then acc ++ [l] else acc) []
  if writeOk then ⟨kept, [.unsyncedLogsChanged], 1⟩ else ⟨logs, [], 1⟩

/-- One mutating operation on the log cache, with the outcome of its single
persistence write. -/
inductive CacheOp where
  | record (log : VariantMap) (now : String) (writeOk : Bool)
  | markSynced (logId now : String) (writeOk : Bool)
  | clearSynced (writeOk : Bool)

/-- Persisted logs snapshot after one operation. -/
def applyOp (logs : List VariantMap) : CacheOp → List VariantMap
  | .record log now w => (cacheLog log now w logs).newLogs
  | .markSynced logId now w => (markLogSynced logId now w logs).newLogs
  | .clearSynced w => (clearSyncedLogs w logs).newLogs

/-- Persisted logs snapshot after a sequence of operations. -/
def runOps (logs : List VariantMap) (ops : List CacheOp) : List VariantMap :=
  ops.foldl applyOp logs

/-!
## User roster cache (`cacheUsers`, `getCachedUsers`)

The roster file stores one QVariantMap `{timestamp, users}`. -/

/-- `CacheManager::loadFromFile`: missing or unparseable file gives an
invalid `QVariant`. -/
def loadFromFile (file : Option QVal) : QVal := file.getD .vNull

/-- `CacheManager::cacheUsers(users)`: build `{timestamp, users}` and save
it; on success the snapshot is replaced wholesale and `cacheUpdated` is
emitted, on failure the previous file is untouched. -/
def cacheUsers (users : List QVal) (now : String) (writeOk : Bool)
    (file : Option QVal) : Option QVal × List CacheSignal :=
  let cacheData :=
    mapSet (mapSet [] "timestamp" (.vStr now)) "users" (.vList users)
  if writeOk then (some (.vMap cacheData), [.cacheUpdated]) else (file, [])

/-- `CacheManager::getCachedUsers()`: `loadFromFile(...).toMap()["users"].toList()`. -/
def getCachedUsers (file : Option QVal) : List QVal :=
  qToList (mapGet (qToMap (loadFromFile file)) "users")

/-!
## Recognition response handling (`FaceRecognitionService`)

`parseRecognizeResponse` takes the raw reply body; `none` stands for a body
on which `QJsonDocument::fromJson` fails (`doc.isNull()`), `some obj` for a
parsed JSON object.  The reply slot `onRecognizeReplyFinished` observes the
reply error state (`reply->error() != NoError` covers both transport
failures and HTTP error statuses, which Qt maps to reply errors) and emits
exactly one of the two signals `faceRecognized(userId, name)` or
`faceRecognitionFailed()`. -/

/-- JSON object of the `/recognize` reply body. -/
abbrev JsonObj := List (String × QVal)

/-- `FaceRecognitionService::parseRecognizeResponse`. -/
def parseRecognizeResponse (body : Option JsonObj) : VariantMap :=
  match body with
  | none =>
      mapSet (mapSet [] "success" (.vBool false)) "error"
        (.vStr "Invalid JSON response")
  | some obj =>
      mapSet (mapSet (mapSet (mapSet (mapSet (mapSet []
        "success" (.vBool true))
        "matched" (.vBool (qToBool (mapGet obj "matched"))))
        "user_id" (.vStr (qToString (mapGet obj "user_id"))))
        "name" (.vStr (qToString (mapGet obj "name"))))
        "distance" (.vNum (qToNum (mapGet obj "distance"))))
        "threshold" (.vNum (qToNum (mapGet obj "threshold")))

/-- The signal emitted at the end of `onRecognizeReplyFinished`. -/
inductive RecognizeSignal where
  | faceRecognized (userId userName : String)
  | faceRecognitionFailed
deriving DecidableEq

/-- `FaceRecognitionService::onRecognizeReplyFinished`.  `replyError` is
`reply->error() != QNetworkReply::NoError` (true on connection refused, DNS
failure, timeout, and HTTP error statuses); `body` is the reply body as
above. -/
def onRecognizeReplyFinished (replyError : Bool) (body : Option JsonObj) :
    RecognizeSignal :=
  if replyError then .faceRecognitionFailed
  else
    let result := parseRecognizeResponse body
    if qToBool (mapGet result "matched") then
      .faceRecognized (qToString (mapGet result "user_id"))
        (qToString (mapGet result "name"))
    else .faceRecognitionFailed

/-!
## Camera start-up (`CameraManager::startCamera`)

`m_cameraAvailable` is set once in the constructor from the device list and
never written afterwards; `m_cameraRunning` starts false and is set true only
at the end of a successful `startCamera`.  `devicesNow` is the device list
probed inside `startCamera` itself (`QMediaDevices::videoInputs()` at call
time). -/

structure CameraState where
  cameraAvailable : Bool
  cameraRunning : Bool
deriving DecidableEq

inductive CameraSignal where
  | cameraError (msg : String)
  | cameraStarted
  | cameraStopped
deriving DecidableEq

/-- `CameraManager::startCamera()`: returns the `bool` result, the state
after the call, and the emitted signals. -/
def startCamera (devicesNow : Bool) (s : CameraState) :
    Bool × CameraState × List CameraSignal :=
  if s.cameraAvailable = false then
    (false, s, [.cameraError "Camera not available"])
  else if s.cameraRunning then (true, s, [])
  else if devicesNow = false then (false, s, [.cameraError "No camera found"])
  else (true, { s with cameraRunning := true }, [.cameraStarted])

/-! ## Association-list lemmas -/

theorem mapGet_mapSet_self (m : VariantMap) (k : String) (v : QVal) :
    mapGet (mapSet m k v) k = v := by
  induction m with
  | nil => simp [mapSet, mapGet]
  | cons hd tl ih =>
      obtain ⟨k0, v0⟩ := hd
      by_cases h : k0 = k
      · simp [mapSet, mapGet, h]
      · simp [mapSet, mapGet, h, ih]

theorem mapGet_mapSet_ne (m : VariantMap) (k k0 : String) (v : QVal)
    (h : k0 ≠ k) : mapGet (mapSet m k0 v) k = mapGet m k := by
  induction m with
  | nil => simp [mapSet, mapGet, h]
  | cons hd tl ih =>
      obtain ⟨k1, v1⟩ := hd
      by_cases h1 : k1 = k0
      · subst h1
        simp [mapSet, mapGet, h]
      · by_cases h2 : k1 = k
        · subst h2
          simp [mapSet, mapGet, h1]
        · simp [mapSet, mapGet, h1, h2, ih]

/-! ## Cache helper lemmas -/

/-- The entry appended by `cacheLog` reads back as unsynced. -/
theorem entrySynced_cachedEntry (log : VariantMap) (now : String) :
    entrySynced (cachedEntry log now) = false := by
  unfold entrySynced cachedEntry
  rw [mapGet_mapSet_ne _ _ _ _ (by decide), mapGet_mapSet_self]
  rfl

/-- The entry updated by `markLogSynced` reads back as synced. -/
theorem entrySynced_marked (log : VariantMap) (now : String) :
    entrySynced
      (mapSet (mapSet log "synced" (.vBool true)) "synced_at" (.vStr now))
      = true := by
  unfold entrySynced
  rw [mapGet_mapSet_ne _ _ _ _ (by decide), mapGet_mapSet_self]
  rfl

/-- The accumulating loop shared by `getUnsyncedLogs` and `clearSyncedLogs`
builds `filter`. -/
theorem foldl_keepUnsynced_eq (logs : List VariantMap) :
    ∀ acc : List VariantMap,
      logs.foldl (fun a l => if entrySynced l = false then a ++ [l] else a) acc
        = acc ++ logs.filter (fun l => !entrySynced l) := by
  induction logs with
  | nil => intro acc; simp
  | cons l rest ih =>
      intro acc
      cases hl : entrySynced l
      · simp [List.foldl_cons, hl, ih, List.filter_cons]
      · simp [List.foldl_cons, hl, ih, List.filter_cons]

/-- An unsynced entry surviving `markFirstSynced` was already in the list. -/
theorem mem_markFirstSynced_pending (logId now : String)
    (logs : List VariantMap) :
    ∀ e ∈ markFirstSynced logId now logs, entrySynced e = false → e ∈ logs := by
  induction logs with
  | nil => intro e he _; simp [markFirstSynced] at he
  | cons log rest ih =>
      intro e he hp
      by_cases hid : entryId log = logId
      · rw [markFirstSynced, if_pos hid] at he
        rcases List.mem_cons.mp he with h | h
        · rw [h, entrySynced_marked] at hp
          exact absurd hp (by simp)
        · exact List.mem_cons_of_mem _ h
      · rw [markFirstSynced, if_neg hid] at he
        rcases List.mem_cons.mp he with h | h
        · exact h ▸ List.mem_cons_self _ _
        · exact List.mem_cons_of_mem _ (ih e h hp)

/-- When no entry has the requested id, the `markLogSynced` loop changes
nothing. -/
theorem markFirstSynced_absent (logId now : String) (logs : List VariantMap)
    (h : ∀ e ∈ logs, entryId e ≠ logId) :
    markFirstSynced logId now logs = logs := by
  induction logs with
  | nil => rfl
  | cons log rest ih =>
      rw [markFirstSynced, if_neg (h log (List.mem_cons_self _ _))]
      exact congrArg _ (ih fun e he => h e (List.mem_cons_of_mem _ he))

/-- Any unsynced entry in the state after one cache operation was already in
the state before it, unless it is the entry freshly appended by a `record`
operation. -/
theorem mem_applyOp_pending (op : CacheOp) (logs : List VariantMap) :
    ∀ e ∈ applyOp logs op, entrySynced e = false →
      e ∈ logs ∨ ∃ log now w, op = .record log now w ∧ e = cachedEntry log now := by
  intro e he hp
  cases op with
  | record log now w =>
      cases w with
      | false => exact Or.inl (by simpa [applyOp, cacheLog] using he)
      | true =>
          rw [applyOp] at he
          simp only [cacheLog, if_pos rfl] at he
          rcases List.mem_append.mp he with h | h
          · exact Or.inl h
          · exact Or.inr ⟨log, now, true, rfl, List.mem_singleton.mp h⟩
  | markSynced logId now w =>
      cases w with
      | false => exact Or.inl (by simpa [applyOp, markLogSynced] using he)
      | true =>
          rw [applyOp] at he
          simp only [markLogSynced, if_pos rfl] at he
          exact Or.inl (mem_markFirstSynced_pending logId now logs e he hp)
  | clearSynced w =>
      cases w with
      | false => exact Or.inl (by simpa [applyOp, clearSyncedLogs] using he)
      | true =>
          rw [applyOp] at he
          simp only [clearSyncedLogs, if_pos rfl] at he
          rw [foldl_keepUnsynced_eq, List.nil_append] at he
          exact Or.inl (List.mem_of_mem_filter he)

/-! ## Claim C1 -/

/-- Claim C1, counterexample.  The claim says every mutating persistence
operation writes the snapshot atomically (write to a temporary location,
then rename over the target), so that after any interrupted write the
previously persisted snapshot is still intact and parseable.  In the code,
`saveToFile` opens the target file itself with `WriteOnly` (truncating it)
and writes in place; at the concrete crash point right after the open, the
logs file — which previously held the parseable snapshot `[]` — is left
truncated and unparseable. -/
theorem c1_crash_mid_save_corrupts_snapshot :
    runFs (fun _ => some (QVal.vList []))
        ((saveToFileOps "logs_cache.json"
          (QVal.vList [QVal.vMap [("id", QVal.vStr "1")]])).take 1)
        "logs_cache.json" = none
    ∧ ((fun _ => some (QVal.vList [])) : FS) "logs_cache.json"
        = some (QVal.vList []) :=
  ⟨rfl, rfl⟩

/-- Claim C1, amended: `saveToFile` persists by opening the destination path
itself for writing (which truncates it) and writing the document in place;
it never uses a temporary file or a rename.  Consequently a completed call
does replace the snapshot, but a crash between the truncating open and the
write leaves the destination unparseable, losing the previous snapshot. -/
theorem c1_saveToFile_writes_in_place (fs : FS) (p : String) (d : QVal) :
    runFs fs ((saveToFileOps p d).take 1) p = none
    ∧ runFs fs (saveToFileOps p d) p = some d
    ∧ ∀ src dst, FsOp.rename src dst ∉ saveToFileOps p d := by
  refine ⟨?_, ?_, ?_⟩
  · simp [runFs, saveToFileOps, applyFsOp]
  · simp [runFs, saveToFileOps, applyFsOp]
  · intro src dst h
    simp [saveToFileOps] at h

/-! ## Claim C2 -/

/-- Claim C2, counterexample.  The claim says a failed persistence write in
`cacheLog` is retried or surfaced to the caller as an error, and the event
is never silently dropped.  At this concrete input, when the single
`saveToFile` call fails, the persisted log stays empty (the event is gone),
no signal is emitted, and exactly one write was attempted — `cacheLog` is
`void`, so the caller receives no indication at all. -/
theorem c2_failed_write_drops_event_silently :
    (cacheLog [("id", QVal.vStr "1"), ("user_name", QVal.vStr "alice")] "t0"
        false []).newLogs = []
    ∧ (cacheLog [("id", QVal.vStr "1"), ("user_name", QVal.vStr "alice")] "t0"
        false []).signals = []
    ∧ (cacheLog [("id", QVal.vStr "1"), ("user_name", QVal.vStr "alice")] "t0"
        false []).writeAttempts = 1 :=
  ⟨rfl, rfl, rfl⟩

/-- Claim C2, amended: when the persistence write fails, `cacheLog` silently
drops the event — the persisted log is unchanged (the event is absent from
it), no signal is emitted, and the write is attempted exactly once, with no
retry and no error surfaced to the caller (the function returns `void` and
the class declares no error signal). -/
theorem c2_cacheLog_failure_no_retry_no_error (log : VariantMap)
    (now : String) (logs : List VariantMap) (w : Bool) (hw : w = false) :
    (cacheLog log now w logs).newLogs = logs
    ∧ (cacheLog log now w logs).signals = []
    ∧ (cacheLog log now w logs).writeAttempts = 1 := by
  subst hw
  exact ⟨rfl, rfl, rfl⟩

/-- Witness for the amended claim C2 at a concrete failing write. -/
theorem c2_cacheLog_failure_witness :
    (false : Bool) = false
    ∧ (cacheLog [("id", QVal.vStr "1")] "t0" false []).newLogs = [] :=
  ⟨rfl, (c2_cacheLog_failure_no_retry_no_error [("id", QVal.vStr "1")] "t0" []
      false rfl).1⟩

/-! ## Claim C3 -/

/-- Claim C3: over every sequence of cache operations (`cacheLog`,
`markLogSynced`, `clearSyncedLogs`, each with either write outcome), an
event's sync state never transitions away from Synced: any entry that reads
as unsynced in the resulting persisted log is, verbatim, either an entry
that was already (unsynced) in the initial log or the Pending entry freshly
appended by one of the `record` operations.  No operation ever turns a
synced entry back into a pending one. -/
theorem c3_sync_state_never_reverts (ops : List CacheOp)
    (logs : List VariantMap) :
    ∀ e ∈ runOps logs ops, entrySynced e = false →
      e ∈ logs ∨ ∃ log now w, CacheOp.record log now w ∈ ops
        ∧ e = cachedEntry log now := by
  induction ops generalizing logs with
  | nil => intro e he _; exact Or.inl he
  | cons op rest ih =>
      intro e he hp
      have he2 : e ∈ runOps (applyOp logs op) rest := he
      rcases ih (applyOp logs op) e he2 hp with h | ⟨log, now, w, hin, he3⟩
      · rcases mem_applyOp_pending op logs e h hp with h2 | ⟨log, now, w, hop, hc⟩
        · exact Or.inl h2
        · exact Or.inr ⟨log, now, w, hop ▸ List.mem_cons_self _ _, hc⟩
      · exact Or.inr ⟨log, now, w, List.mem_cons_of_mem _ hin, he3⟩

/-- Witness for claim C3: a freshly recorded event is unsynced and is
accounted for by the `record` operation that created it. -/
theorem c3_sync_state_witness :
    (cachedEntry [("id", QVal.vStr "1")] "t0"
        ∈ runOps [] [CacheOp.record [("id", QVal.vStr "1")] "t0" true])
    ∧ entrySynced (cachedEntry [("id", QVal.vStr "1")] "t0") = false
    ∧ (cachedEntry [("id", QVal.vStr "1")] "t0" ∈ ([] : List VariantMap)
        ∨ ∃ log now w,
            CacheOp.record log now w
              ∈ [CacheOp.record [("id", QVal.vStr "1")] "t0" true]
            ∧ cachedEntry [("id", QVal.vStr "1")] "t0" = cachedEntry log now) :=
  ⟨List.Mem.head _, entrySynced_cachedEntry _ _,
    c3_sync_state_never_reverts _ [] _ (List.Mem.head _)
      (entrySynced_cachedEntry _ _)⟩

/-! ## Claim C4 -/

/-- Claim C4: when its single synchronous persistence write succeeds,
`cacheLog` appends the event to the stored log with `synced = false`
(Pending), the persisted snapshot after the call is exactly the old log plus
the new Pending entry, and the success signal `unsyncedLogsChanged` is
emitted; the write happens within the call (one attempt), so the event is
present in the persisted log immediately after the call returns. -/
theorem c4_recordEvent_appends_pending (log : VariantMap) (now : String)
    (logs : List VariantMap) (w : Bool) (hw : w = true) :
    (cacheLog log now w logs).newLogs = logs ++ [cachedEntry log now]
    ∧ entrySynced (cachedEntry log now) = false
    ∧ (cacheLog log now w logs).signals = [CacheSignal.unsyncedLogsChanged]
    ∧ (cacheLog log now w logs).writeAttempts = 1 := by
  subst hw
  exact ⟨rfl, entrySynced_cachedEntry log now, rfl, rfl⟩

/-- Witness for claim C4 at a concrete successful write. -/
theorem c4_recordEvent_witness :
    (true : Bool) = true
    ∧ (cacheLog [("id", QVal.vStr "1")] "t0" true []).newLogs
        = [] ++ [cachedEntry [("id", QVal.vStr "1")] "t0"] :=
  ⟨rfl, (c4_recordEvent_appends_pending [("id", QVal.vStr "1")] "t0" [] true
      rfl).1⟩

/-! ## Claim C5 -/

/-- Claim C5: `getUnsyncedLogs` returns exactly the sub-list of the stored
log whose entries read back as unsynced, in stored order — it equals
`filter (not synced)` and is a sublist of the stored log, so every synced
entry is excluded and no unsynced entry is. -/
theorem c5_getUnsyncedLogs_eq_filter (logs : List VariantMap) :
    getUnsyncedLogs logs = logs.filter (fun l => !entrySynced l)
    ∧ (getUnsyncedLogs logs).Sublist logs := by
  have h1 : getUnsyncedLogs logs = logs.filter (fun l => !entrySynced l) := by
    have h := foldl_keepUnsynced_eq logs []
    simpa [getUnsyncedLogs] using h
  refine ⟨h1, ?_⟩
  rw [h1]
  exact List.filter_sublist _

/-! ## Claim C6 -/

/-- Claim C6: for every list of user records (including the empty list),
caching the roster and reading it back is the identity — `cacheUsers`
replaces the snapshot wholesale with `{timestamp, users}`, and
`getCachedUsers` reads the `users` list back unchanged, provided the single
snapshot write succeeds. -/
theorem c6_roster_roundtrip (users : List QVal) (now : String)
    (file : Option QVal) (w : Bool) (hw : w = true) :
    getCachedUsers (cacheUsers users now w file).1 = users := by
  subst hw
  rfl

/-- Witness for claim C6 at the empty roster. -/
theorem c6_roster_roundtrip_witness :
    (true : Bool) = true
    ∧ getCachedUsers (cacheUsers [] "t0" true none).1 = [] :=
  ⟨rfl, c6_roster_roundtrip [] "t0" none true rfl⟩

/-! ## Claim C7 -/

/-- Claim C7: for every well-formed JSON recognition response object,
`parseRecognizeResponse` yields a success result (never an error: `success`
is true and no `error` field is set) that copies the `matched` flag and the
`user_id`, `name`, `distance` and `threshold` field values verbatim; in
particular `matched = false` still yields this normal result. -/
theorem c7_parse_wellformed_response (obj : JsonObj) :
    qToBool (mapGet (parseRecognizeResponse (some obj)) "success") = true
    ∧ mapGet (parseRecognizeResponse (some obj)) "error" = QVal.vNull
    ∧ qToBool (mapGet (parseRecognizeResponse (some obj)) "matched")
        = qToBool (mapGet obj "matched")
    ∧ qToString (mapGet (parseRecognizeResponse (some obj)) "user_id")
        = qToString (mapGet obj "user_id")
    ∧ qToString (mapGet (parseRecognizeResponse (some obj)) "name")
        = qToString (mapGet obj "name")
    ∧ qToNum (mapGet (parseRecognizeResponse (some obj)) "distance")
        = qToNum (mapGet obj "distance")
    ∧ qToNum (mapGet (parseRecognizeResponse (some obj)) "threshold")
        = qToNum (mapGet obj "threshold") :=
  ⟨rfl, rfl, rfl, rfl, rfl, rfl, rfl⟩

/-! ## Claim C8 -/

/-- Claim C8, counterexample.  The claim says transport failures yield a
distinct `Error{NetworkUnavailable}`, HTTP/malformed-body failures a
distinct `Error{ProtocolError}`, and that both are distinguishable from
`NotMatched`.  In the code, `onRecognizeReplyFinished` emits the same
`faceRecognitionFailed()` signal for a transport failure, for an
unparseable body, and for a well-formed `matched=false` response: the three
outcomes are identical, hence indistinguishable. -/
theorem c8_error_classes_collapse :
    onRecognizeReplyFinished true (some [("matched", QVal.vBool false)])
        = RecognizeSignal.faceRecognitionFailed
    ∧ onRecognizeReplyFinished false none
        = RecognizeSignal.faceRecognitionFailed
    ∧ onRecognizeReplyFinished false (some [("matched", QVal.vBool false)])
        = RecognizeSignal.faceRecognitionFailed :=
  ⟨rfl, rfl, rfl⟩

/-- Claim C8, amended: every failure mode of a recognize call — transport
failure or HTTP-level failure (reply error), malformed response body, and
well-formed `matched=false` response alike — results in the one signal
`faceRecognitionFailed`; the implementation produces no distinct
NetworkUnavailable or ProtocolError outcomes, and the no-match result is
not distinguishable from the error outcomes. -/
theorem c8_all_failures_one_signal (body : Option JsonObj) (obj : JsonObj)
    (hnm : qToBool (mapGet obj "matched") = false) :
    onRecognizeReplyFinished true body = RecognizeSignal.faceRecognitionFailed
    ∧ onRecognizeReplyFinished false none
        = RecognizeSignal.faceRecognitionFailed
    ∧ onRecognizeReplyFinished false (some obj)
        = RecognizeSignal.faceRecognitionFailed := by
  refine ⟨rfl, rfl, ?_⟩
  have h2 : qToBool (mapGet (parseRecognizeResponse (some obj)) "matched")
      = qToBool (mapGet obj "matched") := rfl
  simp [onRecognizeReplyFinished, h2, hnm]

/-- Witness for the amended claim C8 at a concrete no-match response. -/
theorem c8_all_failures_witness :
    qToBool (mapGet ([("matched", QVal.vBool false)] : JsonObj) "matched")
        = false
    ∧ onRecognizeReplyFinished false (some [("matched", QVal.vBool false)])
        = RecognizeSignal.faceRecognitionFailed :=
  ⟨rfl, (c8_all_failures_one_signal none [("matched", QVal.vBool false)]
      rfl).2.2⟩

/-! ## Claim C9 -/

/-- Claim C9: `startCamera` is idempotent while the camera is running — in
any state with the camera available (as every reachable running state is,
since `m_cameraAvailable` is fixed at construction and is a precondition for
reaching the running state) and already running, it changes nothing and
returns true with no error.  When no camera device is present
(`m_cameraAvailable` false, or the device probe inside the call finds no
device), it returns false with a device-unavailable error and does not
transition to running. -/
theorem c9_startCamera_idempotent (devicesNow : Bool) (s : CameraState) :
    (s.cameraAvailable = true → s.cameraRunning = true →
        startCamera devicesNow s = (true, s, []))
    ∧ (s.cameraAvailable = false →
        startCamera devicesNow s
          = (false, s, [CameraSignal.cameraError "Camera not available"]))
    ∧ (s.cameraAvailable = true → s.cameraRunning = false →
        devicesNow = false →
        startCamera devicesNow s
          = (false, s, [CameraSignal.cameraError "No camera found"])) := by
  refine ⟨?_, ?_, ?_⟩ <;> intros <;> simp [startCamera, *]

/-- Witness for claim C9: starting an already-running camera is a no-op
returning success, and starting with no device present fails without
running. -/
theorem c9_startCamera_witness :
    ((⟨true, true⟩ : CameraState).cameraAvailable = true
      ∧ (⟨true, true⟩ : CameraState).cameraRunning = true
      ∧ startCamera true ⟨true, true⟩ = (true, ⟨true, true⟩, []))
    ∧ ((⟨false, false⟩ : CameraState).cameraAvailable = false
      ∧ startCamera true ⟨false, false⟩
          = (false, ⟨false, false⟩,
              [CameraSignal.cameraError "Camera not available"])) :=
  ⟨⟨rfl, rfl, (c9_startCamera_idempotent true ⟨true, true⟩).1 rfl rfl⟩,
    ⟨rfl, (c9_startCamera_idempotent true ⟨false, false⟩).2.1 rfl⟩⟩

/-! ## Claim C10 -/

/-- Claim C10: when no stored entry has the requested id, `markLogSynced` is
a no-op, not an error — the loop matches nothing, the list written back is
the unchanged stored list, so every field of every stored event is exactly
as before the call (for either write outcome). -/
theorem c10_markSynced_absent_id_noop (logId now : String) (w : Bool)
    (logs : List VariantMap) (h : ∀ e ∈ logs, entryId e ≠ logId) :
    (markLogSynced logId now w logs).newLogs = logs := by
  cases w with
  | false => rfl
  | true => exact markFirstSynced_absent logId now logs h

/-- Witness for claim C10 at a concrete absent id. -/
theorem c10_markSynced_absent_witness :
    (∀ e ∈ [[("id", QVal.vStr "1")]], entryId e ≠ "2")
    ∧ (markLogSynced "2" "t0" true [[("id", QVal.vStr "1")]]).newLogs
        = [[("id", QVal.vStr "1")]] :=
  ⟨by decide, c10_markSynced_absent_id_noop "2" "t0" true _ (by decide)⟩

end FaceRec
